import Mathlib

/-!
# hedera-mirror-rosetta: persistence/common

A shallow embedding of `app/persistence/common/common.go`: the constant
`tableNameCryptoTransfer`, the record type `CryptoTransfer` with its three
`int64` fields, and the method `TableName`.

Go's `int64` is embedded as the integers of the interval
`[-2^63, 2^63 - 1]`; a Go struct literal is the structure constructor, a
field read is the projection, a field assignment is a structure update and
Go's `==` on the struct is equality of the values.
-/

namespace common

/-! ## Machine integers -/

/-- Smallest value of Go's `int64`, that is `-2^63`. -/
def Int64Min : Int := -9223372036854775808

/-- Largest value of Go's `int64`, that is `2^63 - 1`. -/
def Int64Max : Int := 9223372036854775807

/-- Membership of an integer in the range of Go's `int64`. -/
def InInt64 (i : Int) : Prop := Int64Min ≤ i ∧ i ≤ Int64Max

instance (i : Int) : Decidable (InInt64 i) := by
  unfold InInt64
  exact inferInstance

/-- Go's `int64`: the integers between `Int64Min` and `Int64Max`. -/
def Int64 : Type := { i : Int // InInt64 i }

instance : DecidableEq Int64 := by
  unfold Int64
  exact inferInstance

/-- The integer held by an `int64`. -/
def Int64.toInt (x : Int64) : Int := x.val

/-- The `int64` holding an integer of the range. -/
def Int64.ofInt (i : Int) (h : InInt64 i) : Int64 := ⟨i, h⟩

/-! ## common.go -/

/-- Source: `const ( tableNameCryptoTransfer = "crypto_transfer" )`. -/
def tableNameCryptoTransfer : String := "crypto_transfer"

/-- Source: `type CryptoTransfer struct`, three `int64` fields, each tagged
`gorm:"type:bigint"`. -/
structure CryptoTransfer where
  EntityID : Int64
  ConsensusTimestamp : Int64
  Amount : Int64
  deriving DecidableEq

/-- Source: `func (CryptoTransfer) TableName() string`, whose receiver is
unnamed and whose body is `return tableNameCryptoTransfer`. -/
def CryptoTransfer.TableName (_ : CryptoTransfer) : String :=
  tableNameCryptoTransfer

/-! ## Helper lemmas -/

theorem Int64.toInt_ofInt (i : Int) (h : InInt64 i) :
    (Int64.ofInt i h).toInt = i := rfl

theorem Int64.toInt_inj {x y : Int64} (h : x.toInt = y.toInt) : x = y :=
  Subtype.ext h

theorem Int64.toInt_inRange (x : Int64) : InInt64 x.toInt := x.property

theorem inInt64_min : InInt64 Int64Min := by
  unfold InInt64 Int64Min Int64Max
  omega

theorem inInt64_max : InInt64 Int64Max := by
  unfold InInt64 Int64Min Int64Max
  omega

theorem inInt64_zero : InInt64 0 := by
  unfold InInt64 Int64Min Int64Max
  omega

theorem int64Min_eq : Int64Min = -(2 : Int) ^ 63 := by
  unfold Int64Min
  norm_num

theorem int64Max_eq : Int64Max = (2 : Int) ^ 63 - 1 := by
  unfold Int64Max
  norm_num

/-! ## Claims -/

/-- C1: for every `CryptoTransfer` record, whatever its `EntityID`,
`ConsensusTimestamp` and `Amount`, `TableName` returns exactly the string
"crypto_transfer"; two records always give the same result, and the method
is a total function into `String`, so there is no error outcome. -/
theorem tableName_constant :
    (∀ e t a : Int64,
      (CryptoTransfer.mk e t a).TableName = "crypto_transfer") ∧
    (∀ r : CryptoTransfer, r.TableName = "crypto_transfer") ∧
    (∀ r s : CryptoTransfer, r.TableName = s.TableName) :=
  ⟨fun _ _ _ => rfl, fun _ => rfl, fun _ _ => rfl⟩

/-- C2: field values round-trip losslessly. For all integers `e`, `t`, `a`
of the 64-bit signed range, the record built from them reads back `e` in
`EntityID`, `t` in `ConsensusTimestamp` and `a` in `Amount`. -/
theorem fields_roundtrip (e t a : Int)
    (he : InInt64 e) (ht : InInt64 t) (ha : InInt64 a) :
    (CryptoTransfer.mk (Int64.ofInt e he) (Int64.ofInt t ht)
        (Int64.ofInt a ha)).EntityID.toInt = e ∧
    (CryptoTransfer.mk (Int64.ofInt e he) (Int64.ofInt t ht)
        (Int64.ofInt a ha)).ConsensusTimestamp.toInt = t ∧
    (CryptoTransfer.mk (Int64.ofInt e he) (Int64.ofInt t ht)
        (Int64.ofInt a ha)).Amount.toInt = a :=
  ⟨rfl, rfl, rfl⟩

/-- Witness of C2 at `e = 100`, `t = 1600000000000000000`, `a = -50`. -/
theorem fields_roundtrip_witness :
    (CryptoTransfer.mk (Int64.ofInt 100 (by decide))
        (Int64.ofInt 1600000000000000000 (by decide))
        (Int64.ofInt (-50) (by decide))).EntityID.toInt = 100 ∧
    (CryptoTransfer.mk (Int64.ofInt 100 (by decide))
        (Int64.ofInt 1600000000000000000 (by decide))
        (Int64.ofInt (-50) (by decide))).ConsensusTimestamp.toInt
      = 1600000000000000000 ∧
    (CryptoTransfer.mk (Int64.ofInt 100 (by decide))
        (Int64.ofInt 1600000000000000000 (by decide))
        (Int64.ofInt (-50) (by decide))).Amount.toInt = -50 :=
  fields_roundtrip 100 1600000000000000000 (-50)
    (by decide) (by decide) (by decide)

/-- C3: each of the three fields accepts the full 64-bit signed range. For
every integer `v` with `-2^63 ≤ v ≤ 2^63 - 1` and whatever values `o₁`, `o₂`
the other two fields hold, a record exists that holds exactly `v` (not a
truncated value) in `EntityID`, one that holds it in `ConsensusTimestamp`
and one that holds it in `Amount`, the other two fields being `o₁` and `o₂`;
construction is total, so no validation or error stands in the way. -/
theorem fields_accept_full_range (v : Int)
    (hlo : -(2 : Int) ^ 63 ≤ v) (hhi : v ≤ (2 : Int) ^ 63 - 1)
    (o₁ o₂ : Int64) :
    (∃ r : CryptoTransfer,
      r.EntityID.toInt = v ∧ r.ConsensusTimestamp = o₁ ∧ r.Amount = o₂) ∧
    (∃ r : CryptoTransfer,
      r.EntityID = o₁ ∧ r.ConsensusTimestamp.toInt = v ∧ r.Amount = o₂) ∧
    (∃ r : CryptoTransfer,
      r.EntityID = o₁ ∧ r.ConsensusTimestamp = o₂ ∧ r.Amount.toInt = v) := by
  have hv : InInt64 v := by
    unfold InInt64
    rw [int64Min_eq, int64Max_eq]
    exact ⟨hlo, hhi⟩
  exact ⟨⟨CryptoTransfer.mk (Int64.ofInt v hv) o₁ o₂, rfl, rfl, rfl⟩,
    ⟨CryptoTransfer.mk o₁ (Int64.ofInt v hv) o₂, rfl, rfl, rfl⟩,
    ⟨CryptoTransfer.mk o₁ o₂ (Int64.ofInt v hv), rfl, rfl, rfl⟩⟩

/-- Witness of C3 at `INT64_MIN`, the other two fields holding `INT64_MAX`
and zero. -/
theorem fields_accept_full_range_witness :
    (-(2 : Int) ^ 63 ≤ Int64Min ∧ Int64Min ≤ (2 : Int) ^ 63 - 1) ∧
    (∃ r : CryptoTransfer,
      r.EntityID.toInt = Int64Min ∧
      r.ConsensusTimestamp = Int64.ofInt Int64Max inInt64_max ∧
      r.Amount = Int64.ofInt 0 inInt64_zero) ∧
    (∃ r : CryptoTransfer,
      r.EntityID = Int64.ofInt Int64Max inInt64_max ∧
      r.ConsensusTimestamp.toInt = Int64Min ∧
      r.Amount = Int64.ofInt 0 inInt64_zero) ∧
    (∃ r : CryptoTransfer,
      r.EntityID = Int64.ofInt Int64Max inInt64_max ∧
      r.ConsensusTimestamp = Int64.ofInt 0 inInt64_zero ∧
      r.Amount.toInt = Int64Min) :=
  ⟨⟨by unfold Int64Min; norm_num, by unfold Int64Min; norm_num⟩,
    fields_accept_full_range Int64Min
      (by unfold Int64Min; norm_num) (by unfold Int64Min; norm_num)
      (Int64.ofInt Int64Max inInt64_max) (Int64.ofInt 0 inInt64_zero)⟩

/-- C5: the three fields are independent. Replacing `EntityID`,
`ConsensusTimestamp` or `Amount` of any record by a new value stores that
value and leaves the other two fields and the result of `TableName`
unchanged. -/
theorem field_update_frame (r : CryptoTransfer) (v : Int64) :
    (({ r with EntityID := v }).EntityID = v ∧
      ({ r with EntityID := v }).ConsensusTimestamp = r.ConsensusTimestamp ∧
      ({ r with EntityID := v }).Amount = r.Amount ∧
      ({ r with EntityID := v }).TableName = r.TableName) ∧
    (({ r with ConsensusTimestamp := v }).ConsensusTimestamp = v ∧
      ({ r with ConsensusTimestamp := v }).EntityID = r.EntityID ∧
      ({ r with ConsensusTimestamp := v }).Amount = r.Amount ∧
      ({ r with ConsensusTimestamp := v }).TableName = r.TableName) ∧
    (({ r with Amount := v }).Amount = v ∧
      ({ r with Amount := v }).EntityID = r.EntityID ∧
      ({ r with Amount := v }).ConsensusTimestamp = r.ConsensusTimestamp ∧
      ({ r with Amount := v }).TableName = r.TableName) :=
  ⟨⟨rfl, rfl, rfl, rfl⟩, ⟨rfl, rfl, rfl, rfl⟩, ⟨rfl, rfl, rfl, rfl⟩⟩

/-- C6: a record has no identity beyond its field values. Two
`CryptoTransfer` records are equal if and only if their `EntityID`, their
`ConsensusTimestamp` and their `Amount` hold the same integers. -/
theorem eq_iff_fields_eq (r s : CryptoTransfer) :
    r = s ↔
      r.EntityID.toInt = s.EntityID.toInt ∧
      r.ConsensusTimestamp.toInt = s.ConsensusTimestamp.toInt ∧
      r.Amount.toInt = s.Amount.toInt := by
  constructor
  · intro h
    subst h
    exact ⟨rfl, rfl, rfl⟩
  · rintro ⟨he, ht, ha⟩
    cases r
    cases s
    simp only [CryptoTransfer.mk.injEq]
    exact ⟨Int64.toInt_inj he, Int64.toInt_inj ht, Int64.toInt_inj ha⟩

end common
